import Mathlib

/-!
Verification of the Legato backend synthesis pipeline (src/backend/main.py).

The development shallowly embeds the pipeline of the `synthesize` request
handler: sound-bank discovery (`find_soundfont`), the MIDI-to-audio stage
(`fluidsynth_midi_to_wav`), and the orchestration that writes the ABC text
to a temp file, runs abc2midi, runs FluidSynth, and cleans up temp files.

External processes are modelled by a `RunOutcome` value recorded in an
environment `Env` that one invocation observes; the invocation itself is a
pure function from `Env` and the request to an `Outcome` paired with a
`SynthState` describing which temp files remain and which stages ran.
-/

namespace Legato

/-- Captured result of a completed external process run, as produced by
subprocess.run with capture enabled: exit status and both text streams. -/
structure RunResult where
  returncode : Int
  stdout : String
  stderr : String
deriving Repr, DecidableEq

/-- Outcome of attempting one external process invocation: the process
completed (with some exit status), the call hit its timeout
(subprocess.TimeoutExpired), or the call raised some other exception. -/
inductive RunOutcome where
  | completed (r : RunResult)
  | timedOut
  | raised (msg : String)
deriving Repr, DecidableEq

/-- Model of the configured sample-bank directory path (SOUNDFONT_DIR in the
source; the Path value is abstracted to its final component). -/
def SOUNDFONT_DIR : String := "soundfonts"

/-- The external world one `synthesize` invocation observes: the sample-bank
directory contents, the behaviour of the abc2midi invocation, the size the
MIDI file has after abc2midi runs (recorded so that claims about it can be
stated; the source never reads it), the behaviour of the fluidsynth
invocation, and the state of the output audio file after fluidsynth runs. -/
structure Env where
  soundfontDirExists : Bool
  soundfontDirFiles : List String
  abc2midiOutcome : RunOutcome
  midiSizeAfterAbc2midi : Nat
  fluidsynthOutcome : RunOutcome
  wavExistsAfterFluidsynth : Bool
  wavSizeAfterFluidsynth : Nat
deriving Repr, DecidableEq

/-- Model of the Python str.strip call applied to the ABC text: remove all
leading and all trailing whitespace characters. -/
def strip (s : String) : String :=
  ⟨((s.data.dropWhile Char.isWhitespace).reverse.dropWhile
      Char.isWhitespace).reverse⟩

/-- Whether a filename matches the sample-bank glob pattern, that is, ends
with the .sf2 extension; stated as a suffix check on the character list. -/
def matchesSf2Glob (f : String) : Bool :=
  List.isSuffixOf ((".sf2").data) f.data

/-- `find_soundfont` from the source: if the sample-bank directory does not
exist, return none; otherwise glob for files with the .sf2 suffix and return
the first match, if any. -/
def find_soundfont (env : Env) : Option String :=
  if env.soundfontDirExists = false then none
  else (env.soundfontDirFiles.filter matchesSf2Glob).head?

/-- `fluidsynth_midi_to_wav` from the source: run fluidsynth under a 60s
timeout; return false on a non-zero exit status, on timeout, and on any
exception; on a zero exit status, return true exactly when the output file
exists with size strictly greater than zero. -/
def fluidsynth_midi_to_wav (outcome : RunOutcome) (wavExists : Bool)
    (wavSize : Nat) : Bool :=
  match outcome with
  | RunOutcome.completed r =>
      if r.returncode ≠ 0 then false
      else wavExists && decide (0 < wavSize)
  | RunOutcome.timedOut => false
  | RunOutcome.raised _ => false

/-- Request body of POST /synthesize (the SynthesizeRequest pydantic model):
an `abc` text and a requested output `format`. -/
structure SynthesizeRequest where
  abc : String
  format : String
deriving Repr, DecidableEq

/-- Result delivered to the HTTP layer by one `synthesize` invocation:
either a FileResponse (success, carrying the media type and the suggested
download filename) or an HTTPException (failure, carrying the status code
and the detail text). -/
inductive Outcome where
  | success (mediaType : String) (filename : String)
  | failure (statusCode : Nat) (detail : String)
deriving Repr, DecidableEq

/-- Whether an `Outcome` is the success case. -/
def Outcome.isSuccess : Outcome → Bool
  | Outcome.success _ _ => true
  | Outcome.failure _ _ => false

/-- Observable state left behind by one `synthesize` invocation: which of
the three temp files still exist on storage when the invocation returns,
which external tools were invoked, and the exact text written to the ABC
temp file (recorded even if the file is later deleted). -/
structure SynthState where
  abcPresent : Bool
  midiPresent : Bool
  audioPresent : Bool
  abc2midiInvoked : Bool
  fluidsynthInvoked : Bool
  abcWritten : Option String
deriving Repr, DecidableEq

/-- The state of an invocation that aborted before creating any temp file or
invoking any external tool. -/
def cleanState : SynthState :=
  ⟨false, false, false, false, false, none⟩

/-- Detail text of the HTTPException raised when no sample bank is found. -/
def noSoundfontDetail : String :=
  "No SoundFont (.sf2) found in " ++ SOUNDFONT_DIR ++
    ". Download one from https://musical-artifacts.com/artifacts?formats=sf2"

/-- Model of the text of the subprocess.TimeoutExpired exception raised when
the abc2midi invocation exceeds its 10s timeout; the exact Python rendering
of the exception is abstracted as a fixed string. -/
def abc2midiTimeoutDetail : String :=
  "Command abc2midi timed out after 10 seconds"

/-- The `synthesize` handler from the source, step by step:
1. locate a sample bank; none found raises HTTPException 500 with guidance;
2. strip the ABC text; empty raises HTTPException 400;
3. create the three temp files and write the stripped ABC text to the first;
4. run abc2midi; a non-zero exit raises an exception whose detail prefers
   the captured stderr and falls back to the captured stdout; a timeout or
   other exception from subprocess.run propagates as raised;
5. run fluidsynth via `fluidsynth_midi_to_wav`; a false result raises an
   exception with a fixed detail;
6. on success delete the MIDI and ABC temp files and return a FileResponse
   of the audio file with media type audio/wav;
on any exception all three temp files are deleted (idempotently) and an
HTTPException 500 with the exception text is returned. -/
def synthesize (env : Env) (req : SynthesizeRequest) : Outcome × SynthState :=
  match find_soundfont env with
  | none => (Outcome.failure 500 noSoundfontDetail, cleanState)
  | some _soundfont =>
      let abc_content := strip req.abc
      if abc_content = "" then
        (Outcome.failure 400 ("ABC notation is empty"), cleanState)
      else
        match env.abc2midiOutcome with
        | RunOutcome.completed r =>
            if r.returncode ≠ 0 then
              let detail := if r.stderr ≠ "" then r.stderr else r.stdout
              (Outcome.failure 500 ("abc2midi failed: " ++ detail),
               ⟨false, false, false, true, false, some abc_content⟩)
            else
              let ok := fluidsynth_midi_to_wav env.fluidsynthOutcome
                env.wavExistsAfterFluidsynth env.wavSizeAfterFluidsynth
              if ok then
                (Outcome.success ("audio/wav") ("legato_output.wav"),
                 ⟨false, false, true, true, true, some abc_content⟩)
              else
                (Outcome.failure 500 ("FluidSynth synthesis failed"),
                 ⟨false, false, false, true, true, some abc_content⟩)
        | RunOutcome.timedOut =>
            (Outcome.failure 500 abc2midiTimeoutDetail,
             ⟨false, false, false, true, false, some abc_content⟩)
        | RunOutcome.raised msg =>
            (Outcome.failure 500 msg,
             ⟨false, false, false, true, false, some abc_content⟩)

/-! Concrete fixtures used by counterexamples and witnesses. -/

/-- Environment with no sample-bank directory at all. -/
def envNoBank : Env :=
  ⟨false, [], RunOutcome.completed ⟨0, "", ""⟩, 100,
   RunOutcome.completed ⟨0, "", ""⟩, true, 1000⟩

/-- Environment where everything succeeds: a sample bank is present,
abc2midi exits zero, fluidsynth exits zero and leaves a non-empty file. -/
def envAllGood : Env :=
  ⟨true, ["piano.sf2"], RunOutcome.completed ⟨0, "", ""⟩, 100,
   RunOutcome.completed ⟨0, "", ""⟩, true, 1000⟩

/-- Environment where abc2midi exits zero but leaves a zero-byte MIDI file,
and fluidsynth then succeeds anyway. -/
def envMidiEmpty : Env :=
  ⟨true, ["piano.sf2"], RunOutcome.completed ⟨0, "", ""⟩, 0,
   RunOutcome.completed ⟨0, "", ""⟩, true, 500⟩

/-- Environment where the fluidsynth invocation hits its timeout. -/
def envFsTimeout : Env :=
  ⟨true, ["piano.sf2"], RunOutcome.completed ⟨0, "", ""⟩, 100,
   RunOutcome.timedOut, true, 1000⟩

/-- Environment where fluidsynth exits with status 1 and diagnostic text on
both streams. -/
def envFsExit1 : Env :=
  ⟨true, ["piano.sf2"], RunOutcome.completed ⟨0, "", ""⟩, 100,
   RunOutcome.completed ⟨1, "fs out diag", "fs err diag"⟩, true, 1000⟩

/-- Environment where abc2midi exits with status 1 and stderr text. -/
def envAbcExit1 : Env :=
  ⟨true, ["piano.sf2"], RunOutcome.completed ⟨1, "abc out", "bad abc"⟩, 0,
   RunOutcome.completed ⟨0, "", ""⟩, true, 1000⟩

/-- An empty request. -/
def reqEmpty : SynthesizeRequest := ⟨"", "wav"⟩

/-- The scenario request from the spec, wav format. -/
def reqBasic : SynthesizeRequest := ⟨"X:1\nT:Test\nK:C\nCDEF|", "wav"⟩

/-- A request asking for mp3 output. -/
def reqMp3 : SynthesizeRequest := ⟨"X:1\nT:Test\nK:C\nCDEF|", "mp3"⟩

/-- A request whose ABC text carries leading and trailing whitespace. -/
def reqPadded : SynthesizeRequest := ⟨"  X:1\nK:C\n  ", "wav"⟩

/-! Claim C1. -/

/-- Claim C1, counterexample: with no sample bank installed and empty input,
`synthesize` returns the 500 configuration failure, not the 400 invalid-input
failure — the sound-bank check runs before the empty-input check. -/
theorem c1_counterexample :
    (synthesize envNoBank reqEmpty).1 ≠
      Outcome.failure 400 ("ABC notation is empty") ∧
    (synthesize envNoBank reqEmpty).1 = Outcome.failure 500 noSoundfontDetail := by
  constructor
  · decide
  · rfl

/-- Claim C1 (amended): when a sample bank is present, a request whose ABC
text is empty after trimming gets the 400 invalid-input failure, with no
external process invoked and no temp file created; the sound-bank check
precedes the empty-input check, so without a sample bank an empty input
yields the configuration failure instead. -/
theorem c1_amended_empty_input (env : Env) (req : SynthesizeRequest)
    (sf : String) (hsf : find_soundfont env = some sf)
    (habc : strip req.abc = "") :
    synthesize env req =
      (Outcome.failure 400 ("ABC notation is empty"), cleanState) := by
  simp [synthesize, hsf, habc]

/-- Claim C1 witness: the amended theorem applied at a concrete environment
with a sample bank present and a whitespace-only request. -/
theorem c1_amended_witness :
    synthesize envAllGood ⟨"  ", "wav"⟩ =
      (Outcome.failure 400 ("ABC notation is empty"), cleanState) :=
  c1_amended_empty_input envAllGood ⟨"  ", "wav"⟩ ("piano.sf2") (by decide)
    (by decide)

/-! Claim C2. -/

/-- Claim C2, counterexample: a successful request for mp3 format is
answered with media type audio/wav, not audio/mpeg — the format field of
the request is never consulted. -/
theorem c2_counterexample :
    reqMp3.format = "mp3" ∧
    (synthesize envAllGood reqMp3).1 =
      Outcome.success ("audio/wav") ("legato_output.wav") := by
  constructor
  · rfl
  · rfl

/-- Claim C2 (amended): every successful `synthesize` response carries
media type audio/wav and filename legato_output.wav, regardless of the
requested format. -/
theorem c2_amended_media_type (env : Env) (req : SynthesizeRequest)
    (mt fn : String)
    (h : (synthesize env req).1 = Outcome.success mt fn) :
    mt = "audio/wav" ∧ fn = "legato_output.wav" := by
  rcases hfs : find_soundfont env with _ | sf
  · simp [synthesize, hfs] at h
  · by_cases habc : strip req.abc = ""
    · simp [synthesize, hfs, habc] at h
    · rcases hconv : env.abc2midiOutcome with r | _ | msg
      · by_cases hrc : r.returncode = 0
        · by_cases hok : fluidsynth_midi_to_wav env.fluidsynthOutcome
              env.wavExistsAfterFluidsynth env.wavSizeAfterFluidsynth = true
          · simp [synthesize, hfs, habc, hconv, hrc, hok] at h
            exact ⟨h.1.symm, h.2.symm⟩
          · simp [synthesize, hfs, habc, hconv, hrc, hok] at h
        · simp [synthesize, hfs, habc, hconv, hrc] at h
      · simp [synthesize, hfs, habc, hconv] at h
      · simp [synthesize, hfs, habc, hconv] at h

/-- Claim C2 witness: the amended theorem applied at the all-good
environment with the mp3 request. -/
theorem c2_amended_witness :
    ("audio/wav" : String) = "audio/wav" ∧
      ("legato_output.wav" : String) = "legato_output.wav" :=
  c2_amended_media_type envAllGood reqMp3 ("audio/wav") ("legato_output.wav")
    (by decide)

/-! Claim C3. -/

/-- Claim C3: after any outcome of one `synthesize` invocation, the ABC and
MIDI temp files are gone, and the audio temp file remains exactly when the
outcome is a success (its ownership moves to the FileResponse); on every
failure path all three files are gone. -/
theorem c3_no_leaks (env : Env) (req : SynthesizeRequest) :
    (synthesize env req).2.abcPresent = false ∧
    (synthesize env req).2.midiPresent = false ∧
    (synthesize env req).2.audioPresent = ((synthesize env req).1).isSuccess := by
  rcases hfs : find_soundfont env with _ | sf
  · simp [synthesize, hfs, cleanState, Outcome.isSuccess]
  · by_cases habc : strip req.abc = ""
    · simp [synthesize, hfs, habc, cleanState, Outcome.isSuccess]
    · rcases hconv : env.abc2midiOutcome with r | _ | msg
      · by_cases hrc : r.returncode = 0
        · by_cases hok : fluidsynth_midi_to_wav env.fluidsynthOutcome
              env.wavExistsAfterFluidsynth env.wavSizeAfterFluidsynth = true
          · simp [synthesize, hfs, habc, hconv, hrc, hok, Outcome.isSuccess]
          · simp [synthesize, hfs, habc, hconv, hrc, hok, Outcome.isSuccess]
        · simp [synthesize, hfs, habc, hconv, hrc, Outcome.isSuccess]
      · simp [synthesize, hfs, habc, hconv, Outcome.isSuccess]
      · simp [synthesize, hfs, habc, hconv, Outcome.isSuccess]

/-! Claim C4. -/

/-- Claim C4, counterexample: a fluidsynth timeout and a fluidsynth
non-zero exit produce the very same failure, with the same detail text
"FluidSynth synthesis failed" — the two are not distinguishable in the
result, because `fluidsynth_midi_to_wav` collapses both to false. -/
theorem c4_counterexample :
    (synthesize envFsTimeout reqBasic).1 = (synthesize envFsExit1 reqBasic).1 ∧
    (synthesize envFsTimeout reqBasic).1 =
      Outcome.failure 500 ("FluidSynth synthesis failed") := by
  constructor
  · decide
  · decide

/-- Claim C4 (amended): when the fluidsynth stage hits its timeout,
`synthesize` fails with the fixed detail "FluidSynth synthesis failed" —
the same detail as a non-zero-exit failure; the distinct timed-out text
appears only in the server log, not in the result. -/
theorem c4_amended_timeout (env : Env) (req : SynthesizeRequest)
    (sf : String) (r : RunResult)
    (hsf : find_soundfont env = some sf) (habc : strip req.abc ≠ "")
    (hconv : env.abc2midiOutcome = RunOutcome.completed r)
    (hrc : r.returncode = 0)
    (hto : env.fluidsynthOutcome = RunOutcome.timedOut) :
    (synthesize env req).1 =
      Outcome.failure 500 ("FluidSynth synthesis failed") := by
  simp [synthesize, hsf, habc, hconv, hrc, fluidsynth_midi_to_wav, hto]

/-- Claim C4 witness: the amended theorem applied at the concrete
environment whose fluidsynth invocation times out. -/
theorem c4_amended_witness :
    (synthesize envFsTimeout reqBasic).1 =
      Outcome.failure 500 ("FluidSynth synthesis failed") :=
  c4_amended_timeout envFsTimeout reqBasic ("piano.sf2") ⟨0, "", ""⟩
    (by decide) (by decide) rfl rfl rfl

/-! Claim C5. -/

/-- Claim C5, counterexample: an abc2midi run that exits zero but leaves a
zero-byte MIDI file is not treated as failure — the pipeline proceeds to
invoke fluidsynth and here even returns success, because the conversion
stage checks only the exit status and never the MIDI file. -/
theorem c5_counterexample :
    envMidiEmpty.midiSizeAfterAbc2midi = 0 ∧
    (synthesize envMidiEmpty reqBasic).2.fluidsynthInvoked = true ∧
    (synthesize envMidiEmpty reqBasic).1 =
      Outcome.success ("audio/wav") ("legato_output.wav") := by
  refine ⟨rfl, ?_, ?_⟩
  · decide
  · decide

/-- Claim C5 (amended): only the MIDI-to-audio stage verifies its output
file; the conversion stage declares success on a zero exit status alone, so
with a zero-byte MIDI file the pipeline still invokes fluidsynth, while
`fluidsynth_midi_to_wav` itself does report failure whenever its own output
file is missing or zero-byte. -/
theorem c5_amended_output_checks (env : Env) (req : SynthesizeRequest)
    (sf : String) (r : RunResult)
    (hsf : find_soundfont env = some sf) (habc : strip req.abc ≠ "")
    (hconv : env.abc2midiOutcome = RunOutcome.completed r)
    (hrc : r.returncode = 0)
    (_hmidi : env.midiSizeAfterAbc2midi = 0) :
    (synthesize env req).2.fluidsynthInvoked = true ∧
    fluidsynth_midi_to_wav env.fluidsynthOutcome false 0 = false ∧
    fluidsynth_midi_to_wav env.fluidsynthOutcome
      env.wavExistsAfterFluidsynth 0 = false := by
  refine ⟨?_, ?_, ?_⟩
  · by_cases hok : fluidsynth_midi_to_wav env.fluidsynthOutcome
        env.wavExistsAfterFluidsynth env.wavSizeAfterFluidsynth = true
    · simp [synthesize, hsf, habc, hconv, hrc, hok]
    · simp [synthesize, hsf, habc, hconv, hrc, hok]
  · rcases env.fluidsynthOutcome with rr | _ | m <;>
      simp [fluidsynth_midi_to_wav]
  · rcases env.fluidsynthOutcome with rr | _ | m <;>
      simp [fluidsynth_midi_to_wav]

/-- Claim C5 witness: the amended theorem applied at the concrete
environment whose abc2midi run exits zero with a zero-byte MIDI file. -/
theorem c5_amended_witness :
    (synthesize envMidiEmpty reqBasic).2.fluidsynthInvoked = true ∧
    fluidsynth_midi_to_wav envMidiEmpty.fluidsynthOutcome false 0 = false ∧
    fluidsynth_midi_to_wav envMidiEmpty.fluidsynthOutcome
      envMidiEmpty.wavExistsAfterFluidsynth 0 = false :=
  c5_amended_output_checks envMidiEmpty reqBasic ("piano.sf2") ⟨0, "", ""⟩
    (by decide) (by decide) rfl rfl rfl

/-! Claim C6. -/

/-- Claim C6: when abc2midi exits non-zero, `synthesize` fails with the
stage detail (prefixed "abc2midi failed: ", preferring the captured stderr
and falling back to the captured stdout), fluidsynth is never invoked, and
all three temp files are removed before the failure is reported. -/
theorem c6_conversion_failure (env : Env) (req : SynthesizeRequest)
    (sf : String) (r : RunResult)
    (hsf : find_soundfont env = some sf) (habc : strip req.abc ≠ "")
    (hconv : env.abc2midiOutcome = RunOutcome.completed r)
    (hrc : r.returncode ≠ 0) :
    (synthesize env req).1 = Outcome.failure 500
      ("abc2midi failed: " ++ (if r.stderr ≠ "" then r.stderr else r.stdout)) ∧
    (synthesize env req).2.fluidsynthInvoked = false ∧
    (synthesize env req).2.abcPresent = false ∧
    (synthesize env req).2.midiPresent = false ∧
    (synthesize env req).2.audioPresent = false := by
  refine ⟨?_, ?_, ?_, ?_, ?_⟩ <;> simp [synthesize, hsf, habc, hconv, hrc]

/-- Claim C6 witness: the theorem applied at the concrete environment whose
abc2midi run exits with status 1 and stderr text "bad abc". -/
theorem c6_witness :
    (synthesize envAbcExit1 reqBasic).1 = Outcome.failure 500
      ("abc2midi failed: " ++
        (if ("bad abc" : String) ≠ "" then ("bad abc" : String)
         else ("abc out" : String))) ∧
    (synthesize envAbcExit1 reqBasic).2.fluidsynthInvoked = false ∧
    (synthesize envAbcExit1 reqBasic).2.abcPresent = false ∧
    (synthesize envAbcExit1 reqBasic).2.midiPresent = false ∧
    (synthesize envAbcExit1 reqBasic).2.audioPresent = false :=
  c6_conversion_failure envAbcExit1 reqBasic ("piano.sf2")
    ⟨1, "abc out", "bad abc"⟩ (by decide) (by decide) rfl (by decide)

/-! Claim C7. -/

/-- Claim C7: when no sample bank is discoverable — in particular whenever
the directory itself does not exist — `synthesize` fails with status 500
and the guidance detail (naming the directory and where to download a
sample bank), with no temp file created and no external tool invoked. -/
theorem c7_no_soundfont (env : Env) (req : SynthesizeRequest)
    (h : env.soundfontDirExists = false ∨ find_soundfont env = none) :
    (synthesize env req).1 = Outcome.failure 500 noSoundfontDetail ∧
    (synthesize env req).2 = cleanState := by
  have hn : find_soundfont env = none := by
    rcases h with h | h
    · simp [find_soundfont, h]
    · exact h
  simp [synthesize, hn]

/-- Claim C7 witness: the theorem applied at the concrete environment whose
sample-bank directory does not exist. -/
theorem c7_witness :
    (synthesize envNoBank reqBasic).1 = Outcome.failure 500 noSoundfontDetail ∧
    (synthesize envNoBank reqBasic).2 = cleanState :=
  c7_no_soundfont envNoBank reqBasic (Or.inl rfl)

/-! Claim C8. -/

/-- Claim C8, counterexample: when fluidsynth exits non-zero with stderr
text "fs err diag", the failure detail is not that captured text but the
fixed string "FluidSynth synthesis failed" — the stderr-then-stdout
preference exists only in the abc2midi stage, and the fluidsynth stderr is
only logged. -/
theorem c8_counterexample :
    envFsExit1.fluidsynthOutcome =
      RunOutcome.completed ⟨1, "fs out diag", "fs err diag"⟩ ∧
    (synthesize envFsExit1 reqBasic).1 ≠
      Outcome.failure 500 ("fs err diag") ∧
    (synthesize envFsExit1 reqBasic).1 =
      Outcome.failure 500 ("FluidSynth synthesis failed") := by
  refine ⟨rfl, ?_, ?_⟩
  · decide
  · decide

/-- Claim C8 (amended): whenever the fluidsynth stage fails — non-zero
exit, timeout, exception, or missing/empty output — the resulting failure
carries the fixed detail "FluidSynth synthesis failed"; the captured
diagnostic streams never reach the response. -/
theorem c8_amended_fixed_detail (env : Env) (req : SynthesizeRequest)
    (sf : String) (r : RunResult)
    (hsf : find_soundfont env = some sf) (habc : strip req.abc ≠ "")
    (hconv : env.abc2midiOutcome = RunOutcome.completed r)
    (hrc : r.returncode = 0)
    (hfail : fluidsynth_midi_to_wav env.fluidsynthOutcome
      env.wavExistsAfterFluidsynth env.wavSizeAfterFluidsynth = false) :
    (synthesize env req).1 =
      Outcome.failure 500 ("FluidSynth synthesis failed") := by
  simp [synthesize, hsf, habc, hconv, hrc, hfail]

/-- Claim C8 witness: the amended theorem applied at the concrete
environment whose fluidsynth run exits with status 1. -/
theorem c8_amended_witness :
    (synthesize envFsExit1 reqBasic).1 =
      Outcome.failure 500 ("FluidSynth synthesis failed") :=
  c8_amended_fixed_detail envFsExit1 reqBasic ("piano.sf2") ⟨0, "", ""⟩
    (by decide) (by decide) rfl rfl (by decide)

/-! Claim C9. -/

/-- Claim C9, counterexample: for an ABC text with surrounding whitespace,
the text written to the ABC temp file is the stripped text, not the
submitted text verbatim. -/
theorem c9_counterexample :
    (synthesize envAllGood reqPadded).2.abcWritten = some ("X:1\nK:C") ∧
    (synthesize envAllGood reqPadded).2.abcWritten ≠ some (reqPadded.abc) := by
  constructor
  · decide
  · decide

/-- Claim C9 (amended): for every request that passes the non-empty check,
the text written to the ABC temp file is the submitted ABC text with
surrounding whitespace removed. -/
theorem c9_amended_strip_written (env : Env) (req : SynthesizeRequest)
    (sf : String)
    (hsf : find_soundfont env = some sf) (habc : strip req.abc ≠ "") :
    (synthesize env req).2.abcWritten = some (strip req.abc) := by
  rcases hconv : env.abc2midiOutcome with r | _ | msg
  · by_cases hrc : r.returncode = 0
    · by_cases hok : fluidsynth_midi_to_wav env.fluidsynthOutcome
          env.wavExistsAfterFluidsynth env.wavSizeAfterFluidsynth = true
      · simp [synthesize, hsf, habc, hconv, hrc, hok]
      · simp [synthesize, hsf, habc, hconv, hrc, hok]
    · simp [synthesize, hsf, habc, hconv, hrc]
  · simp [synthesize, hsf, habc, hconv]
  · simp [synthesize, hsf, habc, hconv]

/-- Claim C9 witness: the amended theorem applied at the padded request. -/
theorem c9_amended_witness :
    (synthesize envAllGood reqPadded).2.abcWritten =
      some (strip reqPadded.abc) :=
  c9_amended_strip_written envAllGood reqPadded ("piano.sf2") (by decide)
    (by decide)

/-! Claim C10. -/

/-- Claim C10: `fluidsynth_midi_to_wav` is total over all invocation
outcomes — false on timeout and on any exception — and returns true exactly
when the process completed with exit status zero and the output file exists
with size strictly greater than zero. -/
theorem c10_fluidsynth_total (outcome : RunOutcome) (ex : Bool) (sz : Nat)
    (msg : String) :
    fluidsynth_midi_to_wav RunOutcome.timedOut ex sz = false ∧
    fluidsynth_midi_to_wav (RunOutcome.raised msg) ex sz = false ∧
    (fluidsynth_midi_to_wav outcome ex sz = true ↔
      ∃ r, outcome = RunOutcome.completed r ∧ r.returncode = 0 ∧
        ex = true ∧ 0 < sz) := by
  refine ⟨rfl, rfl, ?_⟩
  constructor
  · intro h
    rcases outcome with r | _ | m
    · by_cases hrc : r.returncode = 0
      · simp [fluidsynth_midi_to_wav, hrc] at h
        exact ⟨r, rfl, hrc, h.1, h.2⟩
      · simp [fluidsynth_midi_to_wav, hrc] at h
    · simp [fluidsynth_midi_to_wav] at h
    · simp [fluidsynth_midi_to_wav] at h
  · rintro ⟨r, rfl, hrc, rfl, hsz⟩
    simp [fluidsynth_midi_to_wav, hrc, hsz]

end Legato
